import Mathlib

/-!
Verification development for the Meshtastic mesh-observer log-ingestion core
(files meshtastic_observer.py and globals.py).

The development shallowly embeds the pieces of the program the claims are
about:

* the five regular expressions of logParser, via a small terminating
  backtracking matcher with Python re.search semantics (leftmost start
  position, greedy/lazy repetition with backtracking, numbered captures);
* Python string/number primitives the handlers use (int(s, 16), float(s),
  str.lower, str.strip, str.rsplit(sep, 1), str.split, substring tests);
* the module_count dictionary of Globals with plain-dict semantics
  (incrementing an absent key raises KeyError);
* the SQLite tables nodes/links/packets with the exact statements the code
  issues (INSERT OR REPLACE, INSERT .. ON CONFLICT DO UPDATE,
  UPDATE OR IGNORE);
* the body of logParser's per-line loop, branch for branch, as a function
  from a line and the carried loop state to either a raised Python error
  (which kills the log-parser thread) or the new state plus the typed
  events the line's effects correspond to.

Machine floats appear only as the SNR (parsed from at most six characters
of [0-9.-]) and as scaled coordinates; both are modeled exactly as
rationals, which is exact for every value these claims mention.
-/

namespace MeshObs

/-! ## Character classes used by the five regexes of logParser -/

/-- The character classes occurring in logParser's regular expressions
(meshtastic_observer.py lines 567-572). -/
inductive CharCls where
  /-- [0-9abcdef] -/
  | hexLower
  /-- [0-9] -/
  | digit
  /-- [A-Za-z ] -/
  | alphaSpace
  /-- [0-9abcdefx] -/
  | hexLowerX
  /-- [ ,a-z=] -/
  | sepCls
  /-- [0-9.-] -/
  | snrCls
  /-- Python regex dot: any character except newline -/
  | anyNotNl
  /-- [\w\W\s]: any character -/
  | anyCh
  /-- [\s] -/
  | wsp
  /-- [ ] -/
  | spaceCh
deriving DecidableEq

/-- Membership of a character in a class. -/
def CharCls.mem : CharCls → Char → Bool
  | .hexLower, c => ('0' ≤ c && c ≤ '9') || ('a' ≤ c && c ≤ 'f')
  | .digit, c => '0' ≤ c && c ≤ '9'
  | .alphaSpace, c => ('A' ≤ c && c ≤ 'Z') || ('a' ≤ c && c ≤ 'z') || c == ' '
  | .hexLowerX, c => ('0' ≤ c && c ≤ '9') || ('a' ≤ c && c ≤ 'f') || c == 'x'
  | .sepCls, c => c == ' ' || c == ',' || ('a' ≤ c && c ≤ 'z') || c == '='
  | .snrCls, c => ('0' ≤ c && c ≤ '9') || c == '.' || c == '-'
  | .anyNotNl, c => !(c == '\n')
  | .anyCh, _ => true
  | .wsp, c => c == ' ' || c == '\t' || c == '\n' || c == '\r' || c == '\x0b' || c == '\x0c'
  | .spaceCh, c => c == ' '

/-! ## A small backtracking regex matcher

Pattern elements cover exactly what the five source regexes need: literals,
bounded class repetition (greedy or lazy), numbered capture groups, an
optional group and a two-way alternation.  Matching is continuation-passing
backtracking, the same search order CPython's re engine uses on these
patterns: alternatives left to right, greedy repetitions longest first,
lazy repetitions shortest first, the whole pattern tried at each start
position from the left. -/

/-- A regex pattern element. -/
inductive Pat where
  /-- a literal character sequence -/
  | lit (cs : List Char)
  /-- class repetition with lower bound, optional upper bound, lazy flag -/
  | rep (c : CharCls) (lo : Nat) (hi : Option Nat) (lazyRep : Bool)
  /-- numbered capture group -/
  | grp (n : Nat) (ps : List Pat)
  /-- optional group, greedy: (...)? -/
  | opt (ps : List Pat)
  /-- two-way alternation a|b -/
  | alt (a b : List Pat)

/-- Captured groups: group number paired with the captured characters. -/
abbrev Caps := List (Nat × List Char)

/-- Length of the maximal run of class characters at the head of the input. -/
def clsRun (c : CharCls) (s : List Char) : Nat := (s.takeWhile (CharCls.mem c)).length

/-- Candidate repetition lengths in the order backtracking tries them:
descending from the maximal feasible length for greedy repetition,
ascending from the lower bound for lazy repetition. -/
def repCands (c : CharCls) (lo : Nat) (hi : Option Nat) (lazyRep : Bool) (s : List Char) : List Nat :=
  let m := match hi with
    | some h => min h (clsRun c s)
    | none => clsRun c s
  if m < lo then []
  else
    let asc := (List.range (m - lo + 1)).map (lo + ·)
    if lazyRep then asc else asc.reverse

/-- Try a continuation on each candidate drop count, first success wins. -/
def firstSome (s : List Char) (caps : Caps) (k : List Char → Caps → Option Caps) :
    List Nat → Option Caps
  | [] => none
  | n :: ns =>
    match k (s.drop n) caps with
    | some r => some r
    | none => firstSome s caps k ns

/-- Match a pattern sequence against a prefix of the input, passing the
remainder and the captures so far to the continuation.  The fuel only
bounds the depth of nested pattern-structure recursion, which is
input-independent: every recursive call peels at least one constructor off
the combined pattern structure, so any fuel at least the pattern's size
never runs out.  (The fuel makes the recursion structural, hence the
definition computes by kernel reduction.) -/
def matchSeq (fuel : Nat) (ps : List Pat) (s : List Char) (caps : Caps)
    (k : List Char → Caps → Option Caps) : Option Caps :=
  match fuel with
  | 0 => none
  | fuel2 + 1 =>
    match ps with
    | [] => k s caps
    | p :: ps2 =>
      let contK : List Char → Caps → Option Caps :=
        fun s2 caps2 => matchSeq fuel2 ps2 s2 caps2 k
      match p with
      | .lit cs => if cs.isPrefixOf s then contK (s.drop cs.length) caps else none
      | .rep c lo hi lz => firstSome s caps contK (repCands c lo hi lz s)
      | .grp n gps =>
        matchSeq fuel2 gps s caps
          (fun s2 caps2 => contK s2 ((n, s.take (s.length - s2.length)) :: caps2))
      | .opt ops =>
        match matchSeq fuel2 ops s caps contK with
        | some r => some r
        | none => contK s caps
      | .alt a b =>
        match matchSeq fuel2 a s caps contK with
        | some r => some r
        | none => matchSeq fuel2 b s caps contK

/-- Fuel exceeding the size of every pattern in this file (the largest is
well under fifty constructors), so matchSeq never exhausts it. -/
def patFuel : Nat := 200

/-- Python re.search: try a full pattern match at each start position, from
the left; the first position that admits a match wins. -/
def searchFrom (ps : List Pat) (s : List Char) : Option Caps :=
  match matchSeq patFuel ps s [] (fun _ caps => some caps) with
  | some caps => some caps
  | none =>
    match s with
    | [] => none
    | _ :: t => searchFrom ps t

/-- re.search on a string. -/
def reSearch (ps : List Pat) (s : List Char) : Option Caps := searchFrom ps s

/-- match.group(n): the captured characters of group n, if the group
participated in the match. -/
def group (caps : Caps) (n : Nat) : Option (List Char) :=
  (caps.find? (fun pr => pr.1 == n)).map (·.2)

/-! ## The five regexes of logParser (meshtastic_observer.py lines 567-572) -/

/-- regex_traceroute:
([0-9abcdef]{8})[ ]?(\(([0-9.-]{0,6})dB\))? -/
def patTraceroute : List Pat :=
  [.grp 1 [.rep .hexLower 8 (some 8) false],
   .rep .spaceCh 0 (some 1) false,
   .opt [.grp 2 [.lit ['('], .grp 3 [.rep .snrCls 0 (some 6) false], .lit ['d', 'B', ')']]]]

/-- regex_node_info:
user[\s]([\w\W\s]*?), id=0x([0-9abcdef]{8}) -/
def patNodeInfo : List Pat :=
  [.lit "user".data, .rep .wsp 1 (some 1) false,
   .grp 1 [.rep .anyCh 0 none true],
   .lit ", id=0x".data, .grp 2 [.rep .hexLower 8 (some 8) false]]

/-- regex_position:
POSITION node=(?P<id>[0-9abcdef]{8}).*lat=(?P<lat>[0-9]+).*lon=(?P<lon>[0-9]+) -/
def patPosition : List Pat :=
  [.lit "POSITION node=".data, .grp 1 [.rep .hexLower 8 (some 8) false],
   .rep .anyNotNl 0 none false, .lit "lat=".data, .grp 2 [.rep .digit 1 none false],
   .rep .anyNotNl 0 none false, .lit "lon=".data, .grp 3 [.rep .digit 1 none false]]

/-- regex_packet_rx:
Received (?P<type>[A-Za-z ]+) from=(?P<from>[0-9abcdefx]+)[ ,a-z=]+[0-9abcdefx]+[ ,a-z=]+(?P<port_num>[0-9abcdefx]+) -/
def patPacketRx : List Pat :=
  [.lit "Received ".data, .grp 1 [.rep .alphaSpace 1 none false],
   .lit " from=".data, .grp 2 [.rep .hexLowerX 1 none false],
   .rep .sepCls 1 none false, .rep .hexLowerX 1 none false,
   .rep .sepCls 1 none false, .grp 3 [.rep .hexLowerX 1 none false]]

/-- regex_decoding:
(?P<decoding>decoded message|no PSK) -/
def patDecoding : List Pat :=
  [.grp 1 [.alt [.lit "decoded message".data] [.lit "no PSK".data]]]

/-- regex_role:
Role (?P<id>[0-9abcdef]{8}) = (?P<role>[0-9]+), HW = (?P<hw>[0-9]+) -/
def patRole : List Pat :=
  [.lit "Role ".data, .grp 1 [.rep .hexLower 8 (some 8) false],
   .lit " = ".data, .grp 2 [.rep .digit 1 none false],
   .lit ", HW = ".data, .grp 3 [.rep .digit 1 none false]]

/-! ## Python string and number primitives used by logParser -/

/-- Errors a handler can raise; an uncaught error terminates the log-parser
thread. -/
inductive PyErr where
  /-- dict lookup of an absent key -/
  | keyError (k : String)
  /-- list index out of range -/
  | indexError
  /-- attribute access on an object lacking it (here: .group on None, or a
  missing method of the Globals singleton) -/
  | attributeError (name : String)
  /-- int()/float() on an unparsable string -/
  | valueError
  /-- an SQLite persistence error surfaced by a store write -/
  | dbError
deriving DecidableEq

/-- Scan for a substring, Python's "needle in s". -/
def subScan (needle : List Char) : List Char → Bool
  | [] => needle.isEmpty
  | c :: rest => needle.isPrefixOf (c :: rest) || subScan needle rest

/-- Python "sub in s" on strings. -/
def strContainsSub (s sub : String) : Bool := subScan sub.data s.data

/-- Python s.startswith(pre). -/
def pyStartsWith (s pre : String) : Bool := pre.data.isPrefixOf s.data

/-- Python str.isspace characters (the \s set, ASCII part). -/
def isPyWs (c : Char) : Bool :=
  c == ' ' || c == '\t' || c == '\n' || c == '\r' || c == '\x0b' || c == '\x0c'

/-- Python str.strip() with no argument: remove whitespace at both ends. -/
def pyStrip (s : List Char) : List Char :=
  ((s.dropWhile isPyWs).reverse.dropWhile isPyWs).reverse

/-- Python str.strip(chars): remove any of the given characters at both ends. -/
def stripChars (cs : List Char) (s : List Char) : List Char :=
  ((s.dropWhile (cs.contains ·)).reverse.dropWhile (cs.contains ·)).reverse

/-- Python str.split(sep) for a one-character separator: all fields, empty
fields kept, never the empty list. -/
def splitChar (c : Char) : List Char → List (List Char)
  | [] => [[]]
  | x :: xs =>
    match splitChar c xs with
    | [] => [[]]
    | h :: t => if x == c then [] :: h :: t else (x :: h) :: t

/-- The rightmost split point of Python str.rsplit(sep, 1): the text before
the last separator and the text after it, if the separator occurs. -/
def rsplitLast (c : Char) : List Char → Option (List Char × List Char)
  | [] => none
  | x :: xs =>
    match rsplitLast c xs with
    | some (a, b) => some (x :: a, b)
    | none => if x == c then some ([], xs) else none

/-- Python str.rsplit(sep, 1) for a one-character separator: a two-element
list if the separator occurs, otherwise the singleton list. -/
def rsplit1 (c : Char) (s : List Char) : List (List Char) :=
  match rsplitLast c s with
  | none => [s]
  | some (a, b) => [a, b]

/-- Value of a hexadecimal digit (Python int with base 16 accepts both
cases; the captures here are lower case). -/
def hexDigVal (c : Char) : Option Nat :=
  if '0' ≤ c && c ≤ '9' then some (c.toNat - 48)
  else if 'a' ≤ c && c ≤ 'f' then some (c.toNat - 87)
  else if 'A' ≤ c && c ≤ 'F' then some (c.toNat - 55)
  else none

/-- Accumulate hexadecimal digits; none on any non-digit. -/
def hexCoreAux (s : List Char) (acc : Nat) : Option Nat :=
  match s with
  | [] => some acc
  | c :: rest =>
    match hexDigVal c with
    | some v => hexCoreAux rest (acc * 16 + v)
    | none => none

/-- Python int(s, 16) restricted to the capture alphabets of logParser:
an optional 0x prefix then hexadecimal digits; none models ValueError. -/
def pyIntHex (s : List Char) : Option Nat :=
  let s2 := if ['0', 'x'].isPrefixOf s then s.drop 2 else s
  match s2 with
  | [] => none
  | _ => hexCoreAux s2 0

/-- Accumulate decimal digits; none on any non-digit. -/
def decCoreAux (s : List Char) (acc : Nat) : Option Nat :=
  match s with
  | [] => some acc
  | c :: rest =>
    if '0' ≤ c && c ≤ '9' then decCoreAux rest (acc * 10 + (c.toNat - 48))
    else none

/-- Python int(s, 10) on a nonempty digit string; none models ValueError. -/
def pyIntDec (s : List Char) : Option Nat :=
  match s with
  | [] => none
  | _ => decCoreAux s 0

/-- Digits-to-Nat where every character is known to be a digit
(an empty run counts as 0, as in float(".5") and float("5.")). -/
def decNat (s : List Char) : Nat := s.foldl (fun acc c => acc * 10 + (c.toNat - 48)) 0

/-- Python float(s) for an unsigned string over [0-9.]: at most one dot,
at least one digit.  Exact rational value; every SNR the claims mention
("5.00", the sentinel -500) is exactly representable, so no float rounding
is lost. -/
def pyFloatPos (s : List Char) : Option ℚ :=
  if s.any (fun c => !(('0' ≤ c && c ≤ '9') || c == '.')) then none
  else
    match splitChar '.' s with
    | [ip] => if ip.isEmpty then none else some (mkRat (decNat ip) 1)
    | [ip, fp] =>
      if ip.isEmpty && fp.isEmpty then none
      else some (mkRat (decNat ip * 10 ^ fp.length + decNat fp) (10 ^ fp.length))
    | _ => none

/-- Python float(s) for a string over the SNR class [0-9.-]: at most one
leading minus sign; none models ValueError. -/
def pyFloat (s : List Char) : Option ℚ :=
  match s with
  | '-' :: rest => (pyFloatPos rest).map Neg.neg
  | _ => pyFloatPos s

/-! ## The module_count dictionary of the Globals singleton

globals.py lines 39-56.  Python dict semantics: incrementing an absent key
raises KeyError.  The key startlog holds the ingestion start timestamp, not
a counter (it is set to datetime.now() at meshtastic_observer.py line 576,
before the loop); wall-clock time is not modeled, so the counter map keeps
the integer-valued keys only. -/

/-- The integer-valued entries of Globals.module_count as initialized by
Globals.init (globals.py lines 39-56). -/
def initialModuleCount : List (String × Nat) :=
  [("DeviceTelemetry", 0), ("EnvironmentTelemetry", 0), ("PowerTelemetry", 0),
   ("HostMetrics", 0), ("AirQuality", 0), ("HealthTelemetry", 0),
   ("StoreForward", 0), ("ExternalNotificationModule", 0), ("Admin", 0),
   ("routing", 0), ("traceroute", 0), ("position", 0), ("nodeinfo", 0),
   ("text msg", 0), ("error7", 0)]

/-- Python d[k] as an Option. -/
def dictGet (d : List (String × Nat)) (k : String) : Option Nat :=
  (d.find? (fun p => p.1 == k)).map (·.2)

/-- Python d[k] = v: replace in place, or append preserving insertion order. -/
def dictSet (d : List (String × Nat)) (k : String) (v : Nat) : List (String × Nat) :=
  if d.any (fun p => p.1 == k) then d.map (fun p => if p.1 == k then (k, v) else p)
  else d ++ [(k, v)]

/-- Python d[k] += 1: KeyError when the key is absent — a plain dict does
not create it. -/
def dictIncr (d : List (String × Nat)) (k : String) : Except PyErr (List (String × Nat)) :=
  match dictGet d k with
  | none => .error (.keyError k)
  | some v => .ok (dictSet d k (v + 1))

/-! ## The SQLite store (tables nodes, links, packets of network.sqlite3) -/

/-- A row of the nodes table, column order as in the INSERT statements:
id, shortname, longname, seen, latitude, longitude, role, hardware,
tracestart. -/
structure NodeRow where
  id : Nat
  shortname : Option String
  longname : Option String
  seen : Nat
  latitude : Option ℚ
  longitude : Option ℚ
  role : Nat
  hardware : Nat
  tracestart : Nat
deriving DecidableEq

/-- The all-NULL node row inserted by the traceroute handler
(VALUES(:id, NULL, NULL, strftime, NULL, NULL, 0, 0, 0)). -/
def NodeRow.blank (i now : Nat) : NodeRow :=
  ⟨i, none, none, now, none, none, 0, 0, 0⟩

/-- A row of the links table: source, destination, snr, seen. -/
structure LinkRow where
  source : Nat
  dest : Nat
  snr : ℚ
  seen : Nat
deriving DecidableEq

/-- A row of the packets table: node id, port/type code, seen. -/
structure PacketRow where
  nodeId : Nat
  ptype : Nat
  seen : Nat
deriving DecidableEq

/-- The three tables. -/
structure Store where
  nodes : List NodeRow
  links : List LinkRow
  packets : List PacketRow
deriving DecidableEq

/-- A fresh (empty) database. -/
def emptyStore : Store := ⟨[], [], []⟩

/-- INSERT OR REPLACE INTO packets VALUES(:id, :type, strftime('%s','now'))
with primary key (id, type): drop any row with the same key, append the
new one. -/
def packetsUpsert (s : Store) (i ty now : Nat) : Store :=
  { s with packets :=
      s.packets.filter (fun r => !(r.nodeId == i && r.ptype == ty)) ++ [⟨i, ty, now⟩] }

/-- INSERT OR REPLACE INTO links VALUES(:source, :destination, :snr,
strftime('%s','now')) with primary key (source, destination). -/
def linksUpsert (s : Store) (src dst : Nat) (snr : ℚ) (now : Nat) : Store :=
  { s with links :=
      s.links.filter (fun r => !(r.source == src && r.dest == dst)) ++ [⟨src, dst, snr, now⟩] }

/-- INSERT INTO nodes VALUES(:id, :shortname, :longname, strftime, NULL,
NULL, 0, 0, 0) ON CONFLICT(id) DO UPDATE SET shortname=:shortname,
longname=:longname, seen=strftime (meshtastic_observer.py line 697). -/
def nodesUpsertNames (s : Store) (i : Nat) (sn ln : String) (now : Nat) : Store :=
  if s.nodes.any (fun r => r.id == i) then
    { s with nodes := s.nodes.map (fun r =>
        if r.id == i then { r with shortname := some sn, longname := some ln, seen := now }
        else r) }
  else
    { s with nodes := s.nodes ++
        [{ NodeRow.blank i now with shortname := some sn, longname := some ln }] }

/-- INSERT INTO nodes VALUES(:id, NULL, NULL, strftime, NULL, NULL, 0, 0, 0)
ON CONFLICT(id) DO UPDATE SET seen=strftime (lines 773 and 775). -/
def nodesTouch (s : Store) (i now : Nat) : Store :=
  if s.nodes.any (fun r => r.id == i) then
    { s with nodes := s.nodes.map (fun r => if r.id == i then { r with seen := now } else r) }
  else
    { s with nodes := s.nodes ++ [NodeRow.blank i now] }

/-- UPDATE OR IGNORE nodes SET seen = strftime, latitude = :lat,
longitude = :lon WHERE id = :id (line 715): no row is created when the id
is absent. -/
def nodesUpdatePos (s : Store) (i : Nat) (la lo : ℚ) (now : Nat) : Store :=
  { s with nodes := s.nodes.map (fun r =>
      if r.id == i then { r with seen := now, latitude := some la, longitude := some lo }
      else r) }

/-- UPDATE OR IGNORE nodes SET role = :role, hardware = :hw WHERE id = :id
(line 733): seen is not touched and no row is created. -/
def nodesUpdateRole (s : Store) (i ro hw : Nat) : Store :=
  { s with nodes := s.nodes.map (fun r =>
      if r.id == i then { r with role := ro, hardware := hw } else r) }

/-- UPDATE OR IGNORE nodes SET tracestart = tracestart + 1 WHERE id = :id
(line 778). -/
def nodesIncTracestart (s : Store) (i : Nat) : Store :=
  { s with nodes := s.nodes.map (fun r =>
      if r.id == i then { r with tracestart := r.tracestart + 1 } else r) }

/-- A store write: the spec's persistence-failure point.  The oracle dbFail
injects an SQLite error into the write, which the loop body does not catch;
dbFail = false is a healthy database. -/
def doWrite (dbFail : Bool) (s : Store) : Except PyErr Store :=
  if dbFail then .error .dbError else .ok s

/-! ## Typed events

One event per effect site of the loop body, in the vocabulary of the spec
(PacketEvent, TelemetryEvent, DecodeEvent, IdentityEvent, PositionEvent,
RoleEvent, ErrorEvent, TraceHopEvent). -/

/-- Events the loop body emits. -/
inductive Event where
  /-- PacketEvent: packets upsert in the packet-received branch -/
  | packet (src ty : Nat)
  /-- TelemetryEvent: packets upsert in the telemetry-detail branch -/
  | telemetry (src ty : Nat)
  /-- DecodeEvent, outcome decoded message -/
  | decoded
  /-- DecodeEvent, outcome no PSK -/
  | encrypted
  /-- IdentityEvent -/
  | identity (id : Nat) (shortName longName : String)
  /-- PositionEvent (coordinates already scaled by 1e-7) -/
  | position (id : Nat) (lat lon : ℚ)
  /-- RoleEvent -/
  | role (id roleV hw : Nat)
  /-- ErrorEvent kind CRC mismatch (error=-7) -/
  | err7
  /-- TraceHopEvent -/
  | traceHop (src dst : Nat) (snr : ℚ) (firstHop : Bool)
deriving DecidableEq

/-- The ids an event mentions as packet source, link endpoint, or
info/position/role subject. -/
def Event.subjectIds : Event → List Nat
  | .packet s _ => [s]
  | .telemetry s _ => [s]
  | .identity i _ _ => [i]
  | .position i _ _ => [i]
  | .role i _ _ => [i]
  | .traceHop s d _ _ => [s, d]
  | _ => []

/-- All ids observed across a list of events. -/
def observedIds (evs : List Event) : List Nat := evs.flatMap Event.subjectIds

/-- The ids for which the event's store effect actually inserts-or-updates
a nodes row: identity subjects and traceroute hop endpoints. -/
def Event.insertedIds : Event → List Nat
  | .identity i _ _ => [i]
  | .traceHop s d _ _ => [s, d]
  | _ => []

/-- All node-inserting ids across a list of events. -/
def createdIds (evs : List Event) : List Nat := evs.flatMap Event.insertedIds

/-- Does a nodes row with this id exist? -/
def nodeHas (s : Store) (i : Nat) : Bool := s.nodes.any (fun r => r.id == i)

/-! ## The loop body of logParser (meshtastic_observer.py lines 583-783)

The loop-local state the parser carries between lines (lines 577-578) plus
the shared module_count dictionary and the database.  Each branch of the
per-line dispatch is one handler; processLine checks them in exactly the
code's order: packet-received regex, telemetry continuation flag, decoding
regex, node-info regex, position regex, role regex, the error=-7 substring,
the traceroute line markers. -/

/-- The state carried between lines by logParser. -/
structure LoopState where
  is_telemetry_packet : Bool
  telemetry_from_id : Nat
  module_count : List (String × Nat)
  store : Store
deriving DecidableEq

/-- The state at the top of the loop against a fresh database:
is_telemetry_packet = False, telemetry_from_id = 0 (lines 577-578). -/
def initState : LoopState :=
  ⟨false, 0, initialModuleCount, emptyStore⟩

/-- The port_numbers table of logParser (lines 533-548). -/
def port_numbers : List (String × Nat) :=
  [("unknown", 0), ("text msg", 1), ("remotehardware", 2), ("position", 3),
   ("nodeinfo", 4), ("routing", 5), ("admin", 6), ("waypoint msg", 8),
   ("telemetry", 67), ("devicetelemetry", 67), ("powertelemetry", 67),
   ("environmenttelemetry", 67), ("hostmetrics", 67), ("traceroute", 70)]

/-- Lookup in port_numbers. -/
def portLookup (k : String) : Option Nat :=
  (port_numbers.find? (fun p => p.1 == k)).map (·.2)

/-- Python str.lower() on a capture. -/
def pyLower (s : List Char) : String := (s.map Char.toLower).asString

/-- Lines 590-625: the packet-received branch.  Arguments are the type and
from captures of regex_packet_rx.  Routing packets are skipped without
touching the telemetry flag; the from id is assigned before the
broadcast/zero check; telemetry (code 67) arms the two-line continuation;
every other known type increments module_count[type] (KeyError when the
lower-cased type is not a key, e.g. admin or waypoint msg) and upserts a
packets row. -/
def handleRx (dbFail : Bool) (now : Nat) (st : LoopState) (tyRaw fromRaw : List Char) :
    Except PyErr (LoopState × List Event) :=
  if pyLower tyRaw = "routing" then .ok (st, [])
  else
    match pyIntHex fromRaw with
    | none => .error .valueError
    | some fromId =>
      if fromId = 0xFFFFFFFF ∨ fromId = 0 then
        .ok ({ st with is_telemetry_packet := false, telemetry_from_id := fromId }, [])
      else
        match portLookup (pyLower tyRaw) with
        | none => .ok ({ st with telemetry_from_id := fromId }, [])
        | some num =>
          if num = 67 then
            .ok ({ st with is_telemetry_packet := true, telemetry_from_id := fromId }, [])
          else
            match dictIncr st.module_count (pyLower tyRaw) with
            | .error e => .error e
            | .ok mc =>
              match doWrite dbFail (packetsUpsert st.store fromId num now) with
              | .error e => .error e
              | .ok store2 =>
                .ok ({ st with
                        telemetry_from_id := fromId
                        module_count := mc
                        store := store2 }, [Event.packet fromId num])

/-- Lines 630-647: which of the six telemetry field-name substrings the
detail line contains, with the counter key and type code of the first hit
of the elif chain. -/
def telemetrySub (line : String) : Option (String × Nat) :=
  if strContainsSub line "air_util_tx" then some ("DeviceTelemetry", 512)
  else if strContainsSub line "ch1_voltage" then some ("PowerTelemetry", 513)
  else if strContainsSub line "barometric_pressure" then some ("EnvironmentTelemetry", 514)
  else if strContainsSub line "diskfree" then some ("HostMetrics", 515)
  else if strContainsSub line "pm10_standard" then some ("AirQuality", 516)
  else if strContainsSub line "heart_bpm" then some ("HealthTelemetry", 517)
  else none

/-- Lines 628-661: the telemetry-detail branch, entered when
is_telemetry_packet is set and the packet-received regex did not match.
On a recognized substring it increments the matching counter and upserts a
packets row for the remembered origin; either way both loop-local flags
are reset. -/
def handleTelemetry (dbFail : Bool) (now : Nat) (st : LoopState) (line : String) :
    Except PyErr (LoopState × List Event) :=
  match telemetrySub line with
  | none => .ok ({ st with is_telemetry_packet := false, telemetry_from_id := 0 }, [])
  | some (key, code) =>
    match dictIncr st.module_count key with
    | .error e => .error e
    | .ok mc =>
      match doWrite dbFail (packetsUpsert st.store st.telemetry_from_id code now) with
      | .error e => .error e
      | .ok store2 =>
        .ok ({ st with
                is_telemetry_packet := false
                telemetry_from_id := 0
                module_count := mc
                store := store2 },
             [Event.telemetry st.telemetry_from_id code])

/-- Lines 664-672: the decoding branch.  The captured alternative selects
module_count['decoded'] or module_count['encrypted'] — neither key is in
the dictionary Globals initializes, so the increment raises KeyError. -/
def handleDecoding (st : LoopState) (grp1 : List Char) :
    Except PyErr (LoopState × List Event) :=
  if grp1 = "decoded message".data then
    match dictIncr st.module_count "decoded" with
    | .error e => .error e
    | .ok mc => .ok ({ st with module_count := mc }, [Event.decoded])
  else if grp1 = "no PSK".data then
    match dictIncr st.module_count "encrypted" with
    | .error e => .error e
    | .ok mc => .ok ({ st with module_count := mc }, [Event.encrypted])
  else .ok (st, [])

/-- Line 685-687: short_name = name[1].strip(" #"), falling back to hex_id
(the last four capture characters, upper-cased) when empty. -/
def niShortName (hexid second : List Char) : String :=
  if (stripChars [' ', '#'] second).isEmpty then ((hexid.drop 4).map Char.toUpper).asString
  else (stripChars [' ', '#'] second).asString

/-- Line 688-690: long_name = name[0].strip(" #"), falling back to the
integer id when empty (Python stores the int itself; its decimal form
models the value). -/
def niLongName (idv : Nat) (first : List Char) : String :=
  if (stripChars [' ', '#'] first).isEmpty then toString idv
  else (stripChars [' ', '#'] first).asString

/-- Lines 676-700: the node-information branch.  Broadcast/zero ids are
skipped; the name is rsplit on the last '/' — name[1] raises IndexError
when the name contains no '/'; otherwise the nodes row is upserted with
the derived names. -/
def handleNodeInfo (dbFail : Bool) (now : Nat) (st : LoopState) (name hexid : List Char) :
    Except PyErr (LoopState × List Event) :=
  match pyIntHex hexid with
  | none => .error .valueError
  | some idv =>
    if idv = 0xFFFFFFFF ∨ idv = 0 then .ok (st, [])
    else
      match (rsplit1 '/' name).get? 1 with
      | none => .error .indexError
      | some second =>
        match doWrite dbFail (nodesUpsertNames st.store idv (niShortName hexid second)
            (niLongName idv ((rsplit1 '/' name).headD [])) now) with
        | .error e => .error e
        | .ok store2 =>
          .ok ({ st with store := store2 },
               [Event.identity idv (niShortName hexid second)
                 (niLongName idv ((rsplit1 '/' name).headD []))])

/-- Lines 703-718: the position branch.  Coordinates are the captured
decimal integers scaled by 1e-7 (modeled exactly as rationals); the store
statement is UPDATE OR IGNORE. -/
def handlePosition (dbFail : Bool) (now : Nat) (st : LoopState) (idRaw latRaw lonRaw : List Char) :
    Except PyErr (LoopState × List Event) :=
  match pyIntHex idRaw with
  | none => .error .valueError
  | some idv =>
    if idv = 0xFFFFFFFF ∨ idv = 0 then .ok (st, [])
    else
      match pyIntDec latRaw, pyIntDec lonRaw with
      | some la, some lo =>
        match doWrite dbFail (nodesUpdatePos st.store idv (mkRat la 10000000)
            (mkRat lo 10000000) now) with
        | .error e => .error e
        | .ok store2 =>
          .ok ({ st with store := store2 },
               [Event.position idv (mkRat la 10000000) (mkRat lo 10000000)])
      | _, _ => .error .valueError

/-- Lines 721-736: the role branch (int(x, 10) or 0 equals int(x, 10) for
every captured digit string); the store statement is UPDATE OR IGNORE and
does not touch seen. -/
def handleRole (dbFail : Bool) (_now : Nat) (st : LoopState) (idRaw roleRaw hwRaw : List Char) :
    Except PyErr (LoopState × List Event) :=
  match pyIntHex idRaw with
  | none => .error .valueError
  | some idv =>
    if idv = 0xFFFFFFFF ∨ idv = 0 then .ok (st, [])
    else
      match pyIntDec roleRaw, pyIntDec hwRaw with
      | some ro, some hw =>
        match doWrite dbFail (nodesUpdateRole st.store idv ro hw) with
        | .error e => .error e
        | .ok store2 => .ok ({ st with store := store2 }, [Event.role idv ro hw])
      | _, _ => .error .valueError

/-- Lines 739-743: the error=-7 branch (key error7 is present in the
initial dictionary). -/
def handleError7 (st : LoopState) : Except PyErr (LoopState × List Event) :=
  match dictIncr st.module_count "error7" with
  | .error e => .error e
  | .ok mc => .ok ({ st with module_count := mc }, [Event.err7])

/-- Lines 757-760: the SNR of a hop, from the destination token's optional
dB capture: float(dest.group(3)) when present (ValueError propagates),
else the sentinel -500. -/
def parseSnr (dcaps : Caps) : Except PyErr ℚ :=
  match group dcaps 3 with
  | some g3 =>
    match pyFloat g3 with
    | some q => .ok q
    | none => .error .valueError
  | none => .ok (-500 : ℚ)

/-- Lines 766-780: the store effects of one accepted hop, in statement
order inside the lock: links upsert, touch source node, touch destination
node, and for the first pair the source's tracestart increment. -/
def nodesAfterHop (n : Nat) (s : Store) (src dst : Nat) (snr : ℚ) (now : Nat) : Store :=
  let s2 := linksUpsert s src dst snr now
  let s3 := nodesTouch s2 src now
  let s4 := nodesTouch s3 dst now
  if n = 0 then nodesIncTracestart s4 src else s4

/-- Lines 752-780: one adjacent pair of the traceroute token list
(nodes[n], nodes[n+1]).  The destination token is stripped before the
search; when it matches, the SNR comes from its optional dB capture, and
only then is the source match dereferenced — source.group(1) raises
AttributeError when the source token did not match.  Broadcast/zero
endpoints and self-loops are skipped; otherwise the hop's store effects
(nodesAfterHop) are committed. -/
def tracePair (dbFail : Bool) (now n : Nat) (s : Store) (a b : List Char) :
    Except PyErr (Store × List Event) :=
  match reSearch patTraceroute (pyStrip b) with
  | none => .ok (s, [])
  | some dcaps =>
    match parseSnr dcaps with
    | .error e => .error e
    | .ok snr =>
      match reSearch patTraceroute a with
      | none => .error (.attributeError "group")
      | some scaps =>
        match pyIntHex ((group scaps 1).getD []), pyIntHex ((group dcaps 1).getD []) with
        | some src, some dst =>
          if src = 0xFFFFFFFF ∨ dst = 0xFFFFFFFF ∨ src = 0 ∨ dst = 0 ∨ src = dst then
            .ok (s, [])
          else
            match doWrite dbFail (nodesAfterHop n s src dst snr now) with
            | .error e => .error e
            | .ok s6 => .ok (s6, [Event.traceHop src dst snr (n = 0)])
        | _, _ => .error .valueError

/-- Lines 753-780: the for-loop over range(len(nodes) - 1), processing each
adjacent token pair in order. -/
def traceHops (dbFail : Bool) (now n : Nat) (s : Store) :
    List (List Char) → Except PyErr (Store × List Event)
  | a :: b :: rest =>
    match tracePair dbFail now n s a b with
    | .error e => .error e
    | .ok (s2, evs) =>
      match traceHops dbFail now (n + 1) s2 (b :: rest) with
      | .error e => .error e
      | .ok (s3, evs2) => .ok (s3, evs ++ evs2)
  | _ => .ok (s, [])

/-- One iteration of the per-line loop of logParser (lines 584-781), with
the branches in the code's order.  The result is either the raised Python
error (the loop has no handler, so the thread dies) or the updated state
and the events whose effects the line committed. -/
def processLine (dbFail : Bool) (now : Nat) (st : LoopState) (line : String) :
    Except PyErr (LoopState × List Event) :=
  match reSearch patPacketRx line.data with
  | some caps => handleRx dbFail now st ((group caps 1).getD []) ((group caps 2).getD [])
  | none =>
    if st.is_telemetry_packet then handleTelemetry dbFail now st line
    else
      match reSearch patDecoding line.data with
      | some caps => handleDecoding st ((group caps 1).getD [])
      | none =>
        match reSearch patNodeInfo line.data with
        | some caps =>
          handleNodeInfo dbFail now st ((group caps 1).getD []) ((group caps 2).getD [])
        | none =>
          match reSearch patPosition line.data with
          | some caps =>
            handlePosition dbFail now st ((group caps 1).getD []) ((group caps 2).getD [])
              ((group caps 3).getD [])
          | none =>
            match reSearch patRole line.data with
            | some caps =>
              handleRole dbFail now st ((group caps 1).getD []) ((group caps 2).getD [])
                ((group caps 3).getD [])
            | none =>
              if strContainsSub line "error=-7" then handleError7 st
              else if pyStartsWith line "#Start" || pyStartsWith line "|" || pyStartsWith line "#Back" then
                match traceHops dbFail now 0 st.store (splitChar '>' line.data) with
                | .error e => .error e
                | .ok (store2, evs) => .ok ({ st with store := store2 }, evs)
              else .ok (st, [])

/-- The loop over a list of lines.  An uncaught error aborts: the remaining
lines are never processed, as the thread has died. -/
def processLines (dbFail : Bool) (now : Nat) (st : LoopState) :
    List String → Except PyErr (LoopState × List Event)
  | [] => .ok (st, [])
  | l :: ls =>
    match processLine dbFail now st l with
    | .error e => .error e
    | .ok (st2, evs) =>
      match processLines dbFail now st2 ls with
      | .error e => .error e
      | .ok (st3, evs2) => .ok (st3, evs ++ evs2)

/-! ## Lock discipline

Every site in the ingestion thread (logParser) and in the scheduler jobs
(statistics, graph) that touches the shared Store (the SQLite file) or the
shared Counters (the module_count dictionary), transcribed from the source
with its line number and whether the access is inside a `with lock:` block.
Sequential accesses of one kind inside a single block or statement group
are one entry. -/

/-- The two long-lived execution contexts. -/
inductive ExecCtx where
  | ingestion
  | schedulerJob
deriving DecidableEq

/-- What kind of shared access a site performs. -/
inductive SharedOp where
  | storeWrite
  | storeRead
  | countersMutation
  | countersSnapshot
deriving DecidableEq

/-- One shared-state access site of the source. -/
structure AccessSite where
  ctx : ExecCtx
  op : SharedOp
  srcLine : Nat
  underLock : Bool
deriving DecidableEq

/-- All shared-state access sites of meshtastic_observer.py:
logParser lines 575-780 (ingestion) and statistics/graph lines 156-490
(scheduler jobs, run by hourlyRunner/dailyRunner). -/
def accessSites : List AccessSite :=
  [ -- logParser 575: module_count = _globals.getModuleCount()
   ⟨.ingestion, .countersSnapshot, 575, false⟩,
   -- logParser 608: module_count[type] += 1
   ⟨.ingestion, .countersMutation, 608, false⟩,
   -- logParser 610-615: INSERT OR REPLACE INTO packets, with lock
   ⟨.ingestion, .storeWrite, 613, true⟩,
   -- logParser 622-623: _globals.setModuleCount(module_count), with lock
   ⟨.ingestion, .countersMutation, 623, true⟩,
   -- logParser 631-646: the six telemetry counter increments
   ⟨.ingestion, .countersMutation, 631, false⟩,
   ⟨.ingestion, .countersMutation, 634, false⟩,
   ⟨.ingestion, .countersMutation, 637, false⟩,
   ⟨.ingestion, .countersMutation, 640, false⟩,
   ⟨.ingestion, .countersMutation, 643, false⟩,
   ⟨.ingestion, .countersMutation, 646, false⟩,
   -- logParser 651-652: setModuleCount, with lock
   ⟨.ingestion, .countersMutation, 652, true⟩,
   -- logParser 653-657: INSERT OR REPLACE INTO packets, with lock
   ⟨.ingestion, .storeWrite, 654, true⟩,
   -- logParser 667/669: module_count['decoded'/'encrypted'] += 1
   ⟨.ingestion, .countersMutation, 667, false⟩,
   ⟨.ingestion, .countersMutation, 669, false⟩,
   -- logParser 670-671: setModuleCount, with lock
   ⟨.ingestion, .countersMutation, 671, true⟩,
   -- logParser 692-699: INSERT INTO nodes .. ON CONFLICT, with lock
   ⟨.ingestion, .storeWrite, 696, true⟩,
   -- logParser 711-717: UPDATE OR IGNORE nodes (position), with lock
   ⟨.ingestion, .storeWrite, 714, true⟩,
   -- logParser 729-735: UPDATE OR IGNORE nodes (role), with lock
   ⟨.ingestion, .storeWrite, 732, true⟩,
   -- logParser 740: module_count['error7'] += 1
   ⟨.ingestion, .countersMutation, 740, false⟩,
   -- logParser 741-742: setModuleCount, with lock
   ⟨.ingestion, .countersMutation, 742, true⟩,
   -- logParser 766-780: links upsert, two node touches, tracestart, with lock
   ⟨.ingestion, .storeWrite, 770, true⟩,
   ⟨.ingestion, .storeWrite, 772, true⟩,
   ⟨.ingestion, .storeWrite, 774, true⟩,
   ⟨.ingestion, .storeWrite, 777, true⟩,
   -- statistics 156: module_count = _globals.getModuleCount()
   ⟨.schedulerJob, .countersSnapshot, 156, false⟩,
   -- statistics 178-236: all counter reads building the hourly graphs
   ⟨.schedulerJob, .countersSnapshot, 178, false⟩,
   -- statistics 264-280: node/link counts and ViewPackets, with lock
   ⟨.schedulerJob, .storeRead, 270, true⟩,
   ⟨.schedulerJob, .storeRead, 273, true⟩,
   ⟨.schedulerJob, .storeRead, 277, true⟩,
   -- graph 462-490: nodes and links reads, with lock
   ⟨.schedulerJob, .storeRead, 467, true⟩,
   ⟨.schedulerJob, .storeRead, 476, true⟩]

/-! ## The Globals singleton's method table

globals.py defines exactly these methods; meshtastic_observer.py calls
setReader/getReader/setEvRunning/getEvRunning on the singleton, which are
not among them, so each such call raises AttributeError. -/

/-- The methods the Globals class defines (globals.py lines 23-114). -/
def globalsMethods : List String :=
  ["getInstance", "reset", "setArgs", "setParser", "setLock", "setModuleCount",
   "getArgs", "getParser", "getLock", "getModuleCount"]

/-- Calling a method on the Globals singleton: AttributeError when the
class does not define it. -/
def callGlobals (m : String) : Except PyErr Unit :=
  if globalsMethods.contains m then .ok () else .error (.attributeError m)

/-- Run a sequence of Globals method calls; the first missing method
raises and aborts the sequence. -/
def runCalls : List String → Except PyErr Unit
  | [] => .ok ()
  | m :: ms =>
    match callGlobals m with
    | .error e => .error e
    | .ok _ => runCalls ms

/-- The Globals methods logParser invokes before its read loop starts
(meshtastic_observer.py lines 550-575). -/
def logParserPrologueCalls : List String :=
  ["getInstance", "getLock", "getReader", "getEvRunning", "getModuleCount"]

/-- The Globals methods scheduleRunner invokes before registering jobs and
entering its loop (lines 805-807). -/
def schedulerPrologueCalls : List String :=
  ["getInstance", "getReader", "getEvRunning"]

/-- The Globals methods main invokes before starting the two threads
(lines 821-870, with initArgParser lines 55-90 inlined at its call). -/
def mainStartupCalls : List String :=
  ["getInstance", "setLock", "setParser", "getInstance", "getParser", "getArgs",
   "setArgs", "setParser", "getArgs", "setReader", "setEvRunning"]

/-! ## Concrete data for the witnesses -/

/-- An armed continuation state: the line before was a telemetry
packet-received line from origin 7. -/
def wSt5 : LoopState := { initState with is_telemetry_packet := true, telemetry_from_id := 7 }

/-- The result of the telemetry detail line processed from wSt5. -/
def wPair5 : LoopState × List Event :=
  (processLine false 0 wSt5 "ch1_voltage=3.30").toOption.getD (initState, [])

/-- A node-information line whose free-text name has no slash. -/
def w9line : String := "user Bob, id=0x000000ab"

/-- The captures of regex_node_info on w9line. -/
def w9caps : Caps := (reSearch patNodeInfo w9line.data).getD []

/-- A well-formed node-information line. -/
def w3line : String := "user Ann / #AA, id=0x000000ab"

/-- The result of processing w3line from the initial state. -/
def w3pair : LoopState × List Event :=
  (processLines false 0 initState [w3line]).toOption.getD (initState, [])

/-! ## Lemmas: which handlers create or preserve nodes rows -/

/-- Mapping an id-preserving function over the nodes table does not change
which ids have a row. -/
theorem nodeHas_map (s : Store) (f : NodeRow → NodeRow) (hf : ∀ r, (f r).id = r.id) (j : Nat) :
    nodeHas { s with nodes := s.nodes.map f } j = nodeHas s j := by
  unfold nodeHas
  rw [List.any_map]
  congr 1
  funext r
  simp [Function.comp, hf r]

/-- Appending rows only adds ids. -/
theorem nodeHas_append (s : Store) (rs : List NodeRow) (j : Nat) :
    nodeHas { s with nodes := s.nodes ++ rs } j = (nodeHas s j || rs.any (fun r => r.id == j)) := by
  unfold nodeHas
  exact List.any_append

/-- packets upserts do not touch the nodes table. -/
theorem nodeHas_packetsUpsert (s : Store) (i ty now j : Nat) :
    nodeHas (packetsUpsert s i ty now) j = nodeHas s j := rfl

/-- links upserts do not touch the nodes table. -/
theorem nodeHas_linksUpsert (s : Store) (src dst : Nat) (snr : ℚ) (now j : Nat) :
    nodeHas (linksUpsert s src dst snr now) j = nodeHas s j := rfl

/-- The position update (UPDATE OR IGNORE) never creates or removes a row. -/
theorem nodeHas_nodesUpdatePos (s : Store) (i : Nat) (la lo : ℚ) (now j : Nat) :
    nodeHas (nodesUpdatePos s i la lo now) j = nodeHas s j := by
  unfold nodesUpdatePos
  apply nodeHas_map
  intro r
  split <;> rfl

/-- The role update (UPDATE OR IGNORE) never creates or removes a row. -/
theorem nodeHas_nodesUpdateRole (s : Store) (i ro hw j : Nat) :
    nodeHas (nodesUpdateRole s i ro hw) j = nodeHas s j := by
  unfold nodesUpdateRole
  apply nodeHas_map
  intro r
  split <;> rfl

/-- The tracestart increment never creates or removes a row. -/
theorem nodeHas_nodesIncTracestart (s : Store) (i j : Nat) :
    nodeHas (nodesIncTracestart s i) j = nodeHas s j := by
  unfold nodesIncTracestart
  apply nodeHas_map
  intro r
  split <;> rfl

/-- The node-information upsert preserves every existing row's id. -/
theorem nodeHas_nodesUpsertNames_mono (s : Store) (i : Nat) (sn ln : String) (now j : Nat)
    (h : nodeHas s j = true) : nodeHas (nodesUpsertNames s i sn ln now) j = true := by
  unfold nodesUpsertNames
  split
  · rw [nodeHas_map]
    · exact h
    · intro r
      split <;> rfl
  · rw [nodeHas_append]
    simp [h]

/-- The node-information upsert guarantees a row for its id. -/
theorem nodeHas_nodesUpsertNames_self (s : Store) (i : Nat) (sn ln : String) (now : Nat) :
    nodeHas (nodesUpsertNames s i sn ln now) i = true := by
  unfold nodesUpsertNames
  split
  · next hc =>
    rw [nodeHas_map]
    · exact hc
    · intro r
      split <;> rfl
  · rw [nodeHas_append]
    simp [NodeRow.blank]

/-- The traceroute node touch preserves every existing row's id. -/
theorem nodeHas_nodesTouch_mono (s : Store) (i now j : Nat)
    (h : nodeHas s j = true) : nodeHas (nodesTouch s i now) j = true := by
  unfold nodesTouch
  split
  · rw [nodeHas_map]
    · exact h
    · intro r
      split <;> rfl
  · rw [nodeHas_append]
    simp [h]

/-- The traceroute node touch guarantees a row for its id. -/
theorem nodeHas_nodesTouch_self (s : Store) (i now : Nat) :
    nodeHas (nodesTouch s i now) i = true := by
  unfold nodesTouch
  split
  · next hc =>
    rw [nodeHas_map]
    · exact hc
    · intro r
      split <;> rfl
  · rw [nodeHas_append]
    simp [NodeRow.blank]

/-- A hop's store effects preserve every existing nodes row. -/
theorem nodeHas_nodesAfterHop_mono (n : Nat) (s : Store) (src dst : Nat) (snr : ℚ)
    (now j : Nat) (h : nodeHas s j = true) :
    nodeHas (nodesAfterHop n s src dst snr now) j = true := by
  unfold nodesAfterHop
  have h2 : nodeHas (nodesTouch (nodesTouch (linksUpsert s src dst snr now) src now) dst now) j
      = true := by
    apply nodeHas_nodesTouch_mono
    apply nodeHas_nodesTouch_mono
    rw [nodeHas_linksUpsert]
    exact h
  split
  · rw [nodeHas_nodesIncTracestart]
    exact h2
  · exact h2

/-- A hop's store effects guarantee a nodes row for the source. -/
theorem nodeHas_nodesAfterHop_src (n : Nat) (s : Store) (src dst : Nat) (snr : ℚ)
    (now : Nat) : nodeHas (nodesAfterHop n s src dst snr now) src = true := by
  unfold nodesAfterHop
  have h2 : nodeHas (nodesTouch (nodesTouch (linksUpsert s src dst snr now) src now) dst now) src
      = true := by
    apply nodeHas_nodesTouch_mono
    exact nodeHas_nodesTouch_self _ _ _
  split
  · rw [nodeHas_nodesIncTracestart]
    exact h2
  · exact h2

/-- A hop's store effects guarantee a nodes row for the destination. -/
theorem nodeHas_nodesAfterHop_dst (n : Nat) (s : Store) (src dst : Nat) (snr : ℚ)
    (now : Nat) : nodeHas (nodesAfterHop n s src dst snr now) dst = true := by
  unfold nodesAfterHop
  have h2 : nodeHas (nodesTouch (nodesTouch (linksUpsert s src dst snr now) src now) dst now) dst
      = true := nodeHas_nodesTouch_self _ _ _
  split
  · rw [nodeHas_nodesIncTracestart]
    exact h2
  · exact h2

/-- A successful doWrite returns the written store unchanged. -/
theorem doWrite_ok (d : Bool) (x y : Store) (h : doWrite d x = .ok y) : y = x := by
  unfold doWrite at h
  split at h
  · simp at h
  · simpa using h.symm

/-- One traceroute pair: existing rows persist and the emitted hop's
endpoints have rows. -/
theorem tracePair_nodes (dbFail : Bool) (now n : Nat) (s : Store) (a b : List Char)
    (s2 : Store) (evs : List Event) (h : tracePair dbFail now n s a b = .ok (s2, evs)) :
    (∀ j, nodeHas s j = true → nodeHas s2 j = true) ∧
    (∀ j, j ∈ createdIds evs → nodeHas s2 j = true) := by
  unfold tracePair at h
  split at h
  · simp only [Except.ok.injEq, Prod.mk.injEq] at h
    obtain ⟨rfl, rfl⟩ := h
    exact ⟨fun j hj => hj, by simp [createdIds]⟩
  · split at h
    · simp at h
    · split at h
      · simp at h
      · split at h
        · split at h
          · simp only [Except.ok.injEq, Prod.mk.injEq] at h
            obtain ⟨rfl, rfl⟩ := h
            exact ⟨fun j hj => hj, by simp [createdIds]⟩
          · split at h
            · simp at h
            · next s6 hw =>
              simp only [Except.ok.injEq, Prod.mk.injEq] at h
              obtain ⟨rfl, rfl⟩ := h
              obtain rfl := doWrite_ok _ _ _ hw
              constructor
              · intro j hj
                exact nodeHas_nodesAfterHop_mono _ _ _ _ _ _ _ hj
              · intro j hj
                simp [createdIds, Event.insertedIds] at hj
                rcases hj with rfl | rfl
                · exact nodeHas_nodesAfterHop_src _ _ _ _ _ _
                · exact nodeHas_nodesAfterHop_dst _ _ _ _ _ _
        · simp at h

/-- The whole traceroute loop: existing rows persist and every emitted
hop's endpoints have rows. -/
theorem traceHops_nodes (ts : List (List Char)) : ∀ (dbFail : Bool) (now n : Nat) (s : Store)
    (s2 : Store) (evs : List Event), traceHops dbFail now n s ts = .ok (s2, evs) →
    (∀ j, nodeHas s j = true → nodeHas s2 j = true) ∧
    (∀ j, j ∈ createdIds evs → nodeHas s2 j = true) := by
  induction ts with
  | nil =>
    intro dbFail now n s s2 evs h
    unfold traceHops at h
    simp only [Except.ok.injEq, Prod.mk.injEq] at h
    obtain ⟨rfl, rfl⟩ := h
    exact ⟨fun j hj => hj, by simp [createdIds]⟩
  | cons a tail ih =>
    intro dbFail now n s s2 evs h
    match tail with
    | [] =>
      unfold traceHops at h
      simp only [Except.ok.injEq, Prod.mk.injEq] at h
      obtain ⟨rfl, rfl⟩ := h
      exact ⟨fun j hj => hj, by simp [createdIds]⟩
    | b :: rest =>
      unfold traceHops at h
      split at h
      · simp at h
      · next sm evs1 hp =>
        split at h
        · simp at h
        · next s3 evs2 hrest =>
          simp only [Except.ok.injEq, Prod.mk.injEq] at h
          obtain ⟨rfl, rfl⟩ := h
          obtain ⟨mono1, cre1⟩ := tracePair_nodes _ _ _ _ _ _ _ _ hp
          obtain ⟨mono2, cre2⟩ := ih _ _ _ _ _ _ hrest
          constructor
          · intro j hj
            exact mono2 j (mono1 j hj)
          · intro j hj
            simp only [createdIds, List.flatMap_append, List.mem_append] at hj
            rcases hj with hj | hj
            · exact mono2 j (cre1 j hj)
            · exact cre2 j hj

/-- The packet-received branch never touches the nodes table and emits no
node-inserting event. -/
theorem handleRx_nodes (dbFail : Bool) (now : Nat) (st : LoopState) (tyRaw fromRaw : List Char)
    (st2 : LoopState) (evs : List Event)
    (h : handleRx dbFail now st tyRaw fromRaw = .ok (st2, evs)) :
    (∀ j, nodeHas st2.store j = nodeHas st.store j) ∧ createdIds evs = [] := by
  unfold handleRx at h
  split at h
  · simp only [Except.ok.injEq, Prod.mk.injEq] at h
    obtain ⟨rfl, rfl⟩ := h
    exact ⟨fun j => rfl, rfl⟩
  · split at h
    · simp at h
    · split at h
      · simp only [Except.ok.injEq, Prod.mk.injEq] at h
        obtain ⟨rfl, rfl⟩ := h
        exact ⟨fun j => rfl, rfl⟩
      · split at h
        · simp only [Except.ok.injEq, Prod.mk.injEq] at h
          obtain ⟨rfl, rfl⟩ := h
          exact ⟨fun j => rfl, rfl⟩
        · split at h
          · simp only [Except.ok.injEq, Prod.mk.injEq] at h
            obtain ⟨rfl, rfl⟩ := h
            exact ⟨fun j => rfl, rfl⟩
          · split at h
            · simp at h
            · split at h
              · simp at h
              · next store2 hw =>
                simp only [Except.ok.injEq, Prod.mk.injEq] at h
                obtain ⟨rfl, rfl⟩ := h
                obtain rfl := doWrite_ok _ _ _ hw
                exact ⟨fun j => nodeHas_packetsUpsert _ _ _ _ _, rfl⟩

/-- The telemetry-detail branch never touches the nodes table and emits no
node-inserting event. -/
theorem handleTelemetry_nodes (dbFail : Bool) (now : Nat) (st : LoopState) (line : String)
    (st2 : LoopState) (evs : List Event)
    (h : handleTelemetry dbFail now st line = .ok (st2, evs)) :
    (∀ j, nodeHas st2.store j = nodeHas st.store j) ∧ createdIds evs = [] := by
  unfold handleTelemetry at h
  split at h
  · simp only [Except.ok.injEq, Prod.mk.injEq] at h
    obtain ⟨rfl, rfl⟩ := h
    exact ⟨fun j => rfl, rfl⟩
  · split at h
    · simp at h
    · split at h
      · simp at h
      · next store2 hw =>
        simp only [Except.ok.injEq, Prod.mk.injEq] at h
        obtain ⟨rfl, rfl⟩ := h
        obtain rfl := doWrite_ok _ _ _ hw
        exact ⟨fun j => nodeHas_packetsUpsert _ _ _ _ _, rfl⟩

/-- The decoding branch never touches the store. -/
theorem handleDecoding_nodes (st : LoopState) (grp1 : List Char)
    (st2 : LoopState) (evs : List Event) (h : handleDecoding st grp1 = .ok (st2, evs)) :
    (∀ j, nodeHas st2.store j = nodeHas st.store j) ∧ createdIds evs = [] := by
  unfold handleDecoding at h
  split at h
  · split at h
    · simp at h
    · simp only [Except.ok.injEq, Prod.mk.injEq] at h
      obtain ⟨rfl, rfl⟩ := h
      exact ⟨fun j => rfl, rfl⟩
  · split at h
    · split at h
      · simp at h
      · simp only [Except.ok.injEq, Prod.mk.injEq] at h
        obtain ⟨rfl, rfl⟩ := h
        exact ⟨fun j => rfl, rfl⟩
    · simp only [Except.ok.injEq, Prod.mk.injEq] at h
      obtain ⟨rfl, rfl⟩ := h
      exact ⟨fun j => rfl, rfl⟩

/-- The node-information branch preserves existing rows and creates one
for its emitted identity subject. -/
theorem handleNodeInfo_nodes (dbFail : Bool) (now : Nat) (st : LoopState)
    (name hexid : List Char) (st2 : LoopState) (evs : List Event)
    (h : handleNodeInfo dbFail now st name hexid = .ok (st2, evs)) :
    (∀ j, nodeHas st.store j = true → nodeHas st2.store j = true) ∧
    (∀ j, j ∈ createdIds evs → nodeHas st2.store j = true) := by
  unfold handleNodeInfo at h
  split at h
  · simp at h
  · split at h
    · simp only [Except.ok.injEq, Prod.mk.injEq] at h
      obtain ⟨rfl, rfl⟩ := h
      exact ⟨fun j hj => hj, by simp [createdIds]⟩
    · split at h
      · simp at h
      · split at h
        · simp at h
        · next store2 hw =>
          simp only [Except.ok.injEq, Prod.mk.injEq] at h
          obtain ⟨rfl, rfl⟩ := h
          obtain rfl := doWrite_ok _ _ _ hw
          constructor
          · intro j hj
            exact nodeHas_nodesUpsertNames_mono _ _ _ _ _ _ hj
          · intro j hj
            simp [createdIds, Event.insertedIds] at hj
            subst hj
            exact nodeHas_nodesUpsertNames_self _ _ _ _ _

/-- The position branch never creates or removes a nodes row and emits no
node-inserting event. -/
theorem handlePosition_nodes (dbFail : Bool) (now : Nat) (st : LoopState)
    (idRaw latRaw lonRaw : List Char) (st2 : LoopState) (evs : List Event)
    (h : handlePosition dbFail now st idRaw latRaw lonRaw = .ok (st2, evs)) :
    (∀ j, nodeHas st2.store j = nodeHas st.store j) ∧ createdIds evs = [] := by
  unfold handlePosition at h
  split at h
  · simp at h
  · split at h
    · simp only [Except.ok.injEq, Prod.mk.injEq] at h
      obtain ⟨rfl, rfl⟩ := h
      exact ⟨fun j => rfl, rfl⟩
    · split at h
      · split at h
        · simp at h
        · next store2 hw =>
          simp only [Except.ok.injEq, Prod.mk.injEq] at h
          obtain ⟨rfl, rfl⟩ := h
          obtain rfl := doWrite_ok _ _ _ hw
          exact ⟨fun j => nodeHas_nodesUpdatePos _ _ _ _ _ _, rfl⟩
      · simp at h

/-- The role branch never creates or removes a nodes row and emits no
node-inserting event. -/
theorem handleRole_nodes (dbFail : Bool) (now : Nat) (st : LoopState)
    (idRaw roleRaw hwRaw : List Char) (st2 : LoopState) (evs : List Event)
    (h : handleRole dbFail now st idRaw roleRaw hwRaw = .ok (st2, evs)) :
    (∀ j, nodeHas st2.store j = nodeHas st.store j) ∧ createdIds evs = [] := by
  unfold handleRole at h
  split at h
  · simp at h
  · split at h
    · simp only [Except.ok.injEq, Prod.mk.injEq] at h
      obtain ⟨rfl, rfl⟩ := h
      exact ⟨fun j => rfl, rfl⟩
    · split at h
      · split at h
        · simp at h
        · next store2 hw =>
          simp only [Except.ok.injEq, Prod.mk.injEq] at h
          obtain ⟨rfl, rfl⟩ := h
          obtain rfl := doWrite_ok _ _ _ hw
          exact ⟨fun j => nodeHas_nodesUpdateRole _ _ _ _ _, rfl⟩
      · simp at h

/-- The error=-7 branch never touches the store. -/
theorem handleError7_nodes (st : LoopState) (st2 : LoopState) (evs : List Event)
    (h : handleError7 st = .ok (st2, evs)) :
    (∀ j, nodeHas st2.store j = nodeHas st.store j) ∧ createdIds evs = [] := by
  unfold handleError7 at h
  split at h
  · simp at h
  · simp only [Except.ok.injEq, Prod.mk.injEq] at h
    obtain ⟨rfl, rfl⟩ := h
    exact ⟨fun j => rfl, rfl⟩

/-- One line: existing nodes rows persist, and every id the line's events
insert (identity subjects, traceroute endpoints) has a row afterwards. -/
theorem processLine_nodes (dbFail : Bool) (now : Nat) (st : LoopState) (line : String)
    (st2 : LoopState) (evs : List Event) (h : processLine dbFail now st line = .ok (st2, evs)) :
    (∀ j, nodeHas st.store j = true → nodeHas st2.store j = true) ∧
    (∀ j, j ∈ createdIds evs → nodeHas st2.store j = true) := by
  unfold processLine at h
  split at h
  · obtain ⟨he, hc⟩ := handleRx_nodes _ _ _ _ _ _ _ h
    exact ⟨fun j hj => (he j) ▸ hj, fun j hj => by simp [hc] at hj⟩
  · split at h
    · obtain ⟨he, hc⟩ := handleTelemetry_nodes _ _ _ _ _ _ h
      exact ⟨fun j hj => (he j) ▸ hj, fun j hj => by simp [hc] at hj⟩
    · split at h
      · obtain ⟨he, hc⟩ := handleDecoding_nodes _ _ _ _ h
        exact ⟨fun j hj => (he j) ▸ hj, fun j hj => by simp [hc] at hj⟩
      · split at h
        · exact handleNodeInfo_nodes _ _ _ _ _ _ _ h
        · split at h
          · obtain ⟨he, hc⟩ := handlePosition_nodes _ _ _ _ _ _ _ _ h
            exact ⟨fun j hj => (he j) ▸ hj, fun j hj => by simp [hc] at hj⟩
          · split at h
            · obtain ⟨he, hc⟩ := handleRole_nodes _ _ _ _ _ _ _ _ h
              exact ⟨fun j hj => (he j) ▸ hj, fun j hj => by simp [hc] at hj⟩
            · split at h
              · obtain ⟨he, hc⟩ := handleError7_nodes _ _ _ h
                exact ⟨fun j hj => (he j) ▸ hj, fun j hj => by simp [hc] at hj⟩
              · split at h
                · split at h
                  · simp at h
                  · next store2 evs2 ht =>
                    simp only [Except.ok.injEq, Prod.mk.injEq] at h
                    obtain ⟨rfl, rfl⟩ := h
                    exact traceHops_nodes _ _ _ _ _ _ _ ht
                · simp only [Except.ok.injEq, Prod.mk.injEq] at h
                  obtain ⟨rfl, rfl⟩ := h
                  exact ⟨fun j hj => hj, by simp [createdIds]⟩

/-- A whole run: existing nodes rows persist, and every id any line's
events insert has a row at the end. -/
theorem processLines_nodes (lines : List String) : ∀ (dbFail : Bool) (now : Nat)
    (st st2 : LoopState) (evs : List Event),
    processLines dbFail now st lines = .ok (st2, evs) →
    (∀ j, nodeHas st.store j = true → nodeHas st2.store j = true) ∧
    (∀ j, j ∈ createdIds evs → nodeHas st2.store j = true) := by
  induction lines with
  | nil =>
    intro dbFail now st st2 evs h
    unfold processLines at h
    simp only [Except.ok.injEq, Prod.mk.injEq] at h
    obtain ⟨rfl, rfl⟩ := h
    exact ⟨fun j hj => hj, by simp [createdIds]⟩
  | cons l ls ih =>
    intro dbFail now st st2 evs h
    unfold processLines at h
    split at h
    · simp at h
    · next stm evs1 h1 =>
      split at h
      · simp at h
      · next st3 evs2 h2 =>
        simp only [Except.ok.injEq, Prod.mk.injEq] at h
        obtain ⟨rfl, rfl⟩ := h
        obtain ⟨mono1, cre1⟩ := processLine_nodes _ _ _ _ _ _ h1
        obtain ⟨mono2, cre2⟩ := ih _ _ _ _ _ h2
        constructor
        · intro j hj
          exact mono2 j (mono1 j hj)
        · intro j hj
          simp only [createdIds, List.flatMap_append, List.mem_append] at hj
          rcases hj with hj | hj
          · exact mono2 j (cre1 j hj)
          · exact cre2 j hj

/-- A successful telemetry-detail line always disarms the continuation and
emits either nothing or one TelemetryEvent for the remembered origin. -/
theorem handleTelemetry_shape (dbFail : Bool) (now : Nat) (st : LoopState) (line : String)
    (st2 : LoopState) (evs : List Event)
    (h : handleTelemetry dbFail now st line = .ok (st2, evs)) :
    st2.is_telemetry_packet = false ∧ st2.telemetry_from_id = 0 ∧
    (evs = [] ∨ ∃ c, evs = [Event.telemetry st.telemetry_from_id c]) := by
  unfold handleTelemetry at h
  split at h
  · simp only [Except.ok.injEq, Prod.mk.injEq] at h
    obtain ⟨rfl, rfl⟩ := h
    exact ⟨rfl, rfl, Or.inl rfl⟩
  · split at h
    · simp at h
    · split at h
      · simp at h
      · simp only [Except.ok.injEq, Prod.mk.injEq] at h
        obtain ⟨rfl, rfl⟩ := h
        exact ⟨rfl, rfl, Or.inr ⟨_, rfl⟩⟩

/-- rsplit finds no split point when the separator does not occur. -/
theorem rsplitLast_eq_none (c : Char) (s : List Char) (h : c ∉ s) : rsplitLast c s = none := by
  induction s with
  | nil => rfl
  | cons x xs ih =>
    unfold rsplitLast
    rw [ih (fun hm => h (List.mem_cons_of_mem _ hm))]
    have hx : (x == c) = false := by
      simp only [beq_eq_false_iff_ne]
      intro he
      subst he
      exact h (List.mem_cons_self _ _)
    simp [hx]

/-- Python s.rsplit(sep, 1) is the singleton list when sep does not occur,
so s.rsplit(sep, 1)[1] raises IndexError. -/
theorem rsplit1_no_sep (c : Char) (s : List Char) (h : c ∉ s) : rsplit1 c s = [s] := by
  unfold rsplit1
  rw [rsplitLast_eq_none c s h]

/-! ## The claims -/

/-- C1, counterexample: on the spec's traceroute line
"#Start>1a2b3c4d(5.00dB)>5e6f7a8b" the loop body does not emit a
TraceHopEvent — it raises AttributeError, because the first pair's source
token "#Start" contains no eight-hex-digit id and source.group(1) is
dereferenced unconditionally; the claim's "parsing never fails" and
"exactly one TraceHopEvent" are both false here. -/
theorem C1_counterexample :
    processLine false 0 initState "#Start>1a2b3c4d(5.00dB)>5e6f7a8b" =
      .error (.attributeError "group") := rfl

/-- C1, amended: on that line processing fails with AttributeError at the
first hop pair and emits nothing; on a traceroute line whose tokens all
carry ids ("|1a2b3c4d>5e6f7a8b"), a destination with no dB annotation
yields one TraceHopEvent carrying the sentinel SNR -500 (and the first-hop
flag), not a parse failure. -/
theorem C1_amended :
    processLine false 0 initState "#Start>1a2b3c4d(5.00dB)>5e6f7a8b" =
        .error (.attributeError "group") ∧
    (processLine false 0 initState "|1a2b3c4d>5e6f7a8b").map (fun p => p.2) =
        .ok [Event.traceHop 0x1a2b3c4d 0x5e6f7a8b (-500) true] :=
  ⟨rfl, rfl⟩

/-- C2: the counters dictionary Globals initializes has no keys decoded,
encrypted, admin or waypoint msg, so the first "decoded message", "no PSK",
admin-packet or waypoint-packet line raises KeyError instead of creating
the counter at 0 — increment does not create absent categories. -/
theorem C2_missing_counter_keys :
    dictGet initialModuleCount "decoded" = none ∧
    dictGet initialModuleCount "encrypted" = none ∧
    dictGet initialModuleCount "admin" = none ∧
    dictGet initialModuleCount "waypoint msg" = none ∧
    processLine false 0 initState "decoded message" = .error (.keyError "decoded") ∧
    processLine false 0 initState "xx no PSK yy" = .error (.keyError "encrypted") ∧
    processLine false 0 initState "Received Admin from=000000aa to=ffffffff id=6" =
      .error (.keyError "admin") ∧
    processLine false 0 initState "Received Waypoint msg from=000000cc to=ffffffff id=8" =
      .error (.keyError "waypoint msg") :=
  ⟨rfl, rfl, rfl, rfl, rfl, rfl, rfl, rfl⟩

/-- C3, counterexample: one position line for id 0xaa on a fresh store
emits a PositionEvent (0xaa is observed as a position subject) yet leaves
no nodes row for 0xaa — the position statement is UPDATE OR IGNORE. -/
theorem C3_counterexample :
    (processLines false 0 initState
        ["POSITION node=000000aa lat=481234567 lon=113456789"]).map
      (fun p => (observedIds p.2, nodeHas p.1.store 0xaa)) = .ok ([0xaa], false) := rfl

/-- C3, amended: after any run that does not die, a nodes row exists for
every id inserted by the run's events — identity subjects and accepted
traceroute hop endpoints; packet/telemetry sources go to the packets table
only, and position/role events never create a row. -/
theorem C3_amended (dbFail : Bool) (now : Nat) (st0 : LoopState) (lines : List String)
    (st2 : LoopState) (evs : List Event)
    (h : processLines dbFail now st0 lines = .ok (st2, evs)) :
    ∀ j, j ∈ createdIds evs → nodeHas st2.store j = true :=
  (processLines_nodes lines dbFail now st0 st2 evs h).2

/-- C3, witness for the amended theorem: the identity line for id 171
creates its nodes row. -/
theorem C3_amended_witness :
    171 ∈ createdIds w3pair.2 ∧ nodeHas w3pair.1.store 171 = true :=
  ⟨by decide, C3_amended false 0 initState [w3line] w3pair.1 w3pair.2 (by rfl) 171 (by decide)⟩

/-- C4: store writes in the loop body are not guarded — when the identity
line's nodes write raises a persistence error, the error propagates out of
the loop body (killing the log-parser thread) and the following line is
never processed, instead of being caught and logged. -/
theorem C4_write_error_propagates :
    processLine true 0 initState "user Bob / #BB, id=0x000000ab" = .error PyErr.dbError ∧
    processLines true 0 initState
      ["user Bob / #BB, id=0x000000ab", "user Carl / #CC, id=0x000000ac"] =
      .error PyErr.dbError :=
  ⟨rfl, rfl⟩

/-- C5, counterexample: with the telemetry continuation armed by the first
line, a second line matching the packet-received pattern is handled by the
packet branch first — it emits a PacketEvent and leaves the armed flag set,
contradicting "the continuation rule is applied before any other pattern,
never a PacketEvent, and the state never survives". -/
theorem C5_counterexample :
    (processLines false 0 initState
        ["Received Telemetry from=000000aa to=ffffffff id=67",
         "Received Position from=000000bb to=ffffffff id=3"]).map
      (fun p => (p.1.is_telemetry_packet, p.2)) = .ok (true, [Event.packet 0xbb 3]) := rfl

/-- C5, amended: when the state is AWAITING_TELEMETRY_SUBTYPE and the next
line does NOT match the packet-received pattern, the line is consumed by
the continuation rule: the state returns to NONE (both flags reset) and
the line emits either nothing or exactly one TelemetryEvent for the
remembered origin — never a PacketEvent. -/
theorem C5_amended (dbFail : Bool) (now : Nat) (st : LoopState) (line : String)
    (st2 : LoopState) (evs : List Event)
    (h1 : st.is_telemetry_packet = true)
    (h2 : reSearch patPacketRx line.data = none)
    (h3 : processLine dbFail now st line = .ok (st2, evs)) :
    st2.is_telemetry_packet = false ∧ st2.telemetry_from_id = 0 ∧
    (evs = [] ∨ ∃ c, evs = [Event.telemetry st.telemetry_from_id c]) := by
  unfold processLine at h3
  split at h3
  · next caps hcaps =>
    rw [h2] at hcaps
    exact Option.noConfusion hcaps
  · split at h3
    · exact handleTelemetry_shape _ _ _ _ _ _ h3
    · next hcond => exact absurd h1 hcond

/-- C5, witness for the amended theorem: a ch1_voltage detail line from an
armed state emits one TelemetryEvent for origin 7 and disarms the state. -/
theorem C5_amended_witness :
    wSt5.is_telemetry_packet = true ∧
    (wPair5.1.is_telemetry_packet = false ∧ wPair5.1.telemetry_from_id = 0 ∧
      (wPair5.2 = [] ∨ ∃ c, wPair5.2 = [Event.telemetry wSt5.telemetry_from_id c])) :=
  ⟨rfl, C5_amended false 0 wSt5 "ch1_voltage=3.30" wPair5.1 wPair5.2 rfl (by rfl) (by rfl)⟩

/-- C6, counterexample: not every shared access holds the lock — the
counter increment at line 608 of the ingestion loop and the counters reads
of the statistics job (lines 156/178) run outside any with-lock block. -/
theorem C6_counterexample :
    (⟨ExecCtx.ingestion, SharedOp.countersMutation, 608, false⟩ : AccessSite) ∈ accessSites ∧
    (⟨ExecCtx.schedulerJob, SharedOp.countersSnapshot, 156, false⟩ : AccessSite) ∈ accessSites ∧
    accessSites.all (fun a => a.underLock) = false :=
  ⟨by decide, by decide, rfl⟩

/-- C6, amended: every Store access — all writes of the ingestion loop and
all reads of the scheduler jobs — is performed under the shared lock; only
counter mutations/reads happen outside it (the in-loop increments and the
statistics job's counter reads), with just the setModuleCount write-back
locked. -/
theorem C6_amended :
    ∀ a ∈ accessSites, (a.op = SharedOp.storeWrite ∨ a.op = SharedOp.storeRead) →
      a.underLock = true := by
  decide

/-- C6, witness for the amended theorem: the packets write at line 613 is
a store write and is under the lock. -/
theorem C6_amended_witness :
    (⟨ExecCtx.ingestion, SharedOp.storeWrite, 613, true⟩ : AccessSite) ∈ accessSites ∧
    (⟨ExecCtx.ingestion, SharedOp.storeWrite, 613, true⟩ : AccessSite).underLock = true :=
  ⟨by decide,
   C6_amended ⟨ExecCtx.ingestion, SharedOp.storeWrite, 613, true⟩ (by decide) (Or.inl rfl)⟩

/-- C7: a telemetry packet-received line followed by a ch1_voltage detail
line yields exactly one TelemetryEvent with the power subtype code 513 and
no PacketEvent; the same line followed by an unrelated detail line yields
no events from either line. -/
theorem C7_telemetry_followup :
    (processLines false 0 initState
        ["Received Telemetry from=000000aa to=ffffffff id=67", "ch1_voltage=3.30"]).map
      (fun p => p.2) = .ok [Event.telemetry 0xaa 513] ∧
    (processLines false 0 initState
        ["Received Telemetry from=000000aa to=ffffffff id=67", "telemetry detail omitted"]).map
      (fun p => p.2) = .ok [] :=
  ⟨rfl, rfl⟩

/-- C8: the node-identity line "user Alice Base Station / #ALC,
id=0x0000abcd" yields exactly one IdentityEvent with id 0xabcd, short name
"ALC" and long name "Alice Base Station". -/
theorem C8_identity_line :
    (processLines false 0 initState ["user Alice Base Station / #ALC, id=0x0000abcd"]).map
      (fun p => p.2) = .ok [Event.identity 0xabcd "ALC" "Alice Base Station"] := rfl

/-- C9: a line matching the node-identity pattern whose captured name has
no '/' (and whose id passes the broadcast/zero filter) makes the loop body
raise IndexError — the rsplit produces a single element and name[1] fails —
so no IdentityEvent is emitted and line processing terminates. -/
theorem C9_no_slash_index_error (dbFail : Bool) (now : Nat) (st : LoopState) (line : String)
    (caps : Caps) (name hexid : List Char) (idv : Nat)
    (h1 : st.is_telemetry_packet = false)
    (h2 : reSearch patPacketRx line.data = none)
    (h3 : reSearch patDecoding line.data = none)
    (h4 : reSearch patNodeInfo line.data = some caps)
    (h5 : group caps 1 = some name)
    (h6 : group caps 2 = some hexid)
    (h7 : '/' ∉ name)
    (h8 : pyIntHex hexid = some idv)
    (h9 : idv ≠ 0xFFFFFFFF)
    (h10 : idv ≠ 0) :
    processLine dbFail now st line = .error PyErr.indexError := by
  unfold processLine
  simp only [h1, h2, h3, h4, h5, h6, Bool.false_eq_true, if_false, Option.getD_some]
  unfold handleNodeInfo
  simp only [h8]
  rw [if_neg (by push_neg; exact ⟨h9, h10⟩)]
  rw [rsplit1_no_sep '/' name h7]
  rfl

/-- C9, witness: the line "user Bob, id=0x000000ab" (name "Bob", no '/')
raises IndexError. -/
theorem C9_no_slash_witness :
    initState.is_telemetry_packet = false ∧ ('/' ∉ "Bob".data) ∧
    processLine false 0 initState w9line = .error PyErr.indexError :=
  ⟨rfl, by decide,
   C9_no_slash_index_error false 0 initState w9line w9caps "Bob".data "000000ab".data 171
     rfl (by rfl) (by rfl) (by rfl) (by rfl) (by rfl) (by decide) (by rfl)
     (by decide) (by decide)⟩

/-- C10: the Globals class defines none of setReader, getReader,
setEvRunning, getEvRunning; consequently the startup call sequences of
logParser, scheduleRunner and main each die with AttributeError on their
first such call — before any log line is parsed and before any scheduled
job is registered or run. -/
theorem C10_missing_globals_methods :
    globalsMethods.contains "setReader" = false ∧
    globalsMethods.contains "getReader" = false ∧
    globalsMethods.contains "setEvRunning" = false ∧
    globalsMethods.contains "getEvRunning" = false ∧
    runCalls logParserPrologueCalls = .error (.attributeError "getReader") ∧
    runCalls schedulerPrologueCalls = .error (.attributeError "getReader") ∧
    runCalls mainStartupCalls = .error (.attributeError "setReader") :=
  ⟨rfl, rfl, rfl, rfl, rfl, rfl, rfl⟩

end MeshObs
